import Mathlib

/-!
# Verification of the DataCenter TCO Scenario Computation Engine

Shallow embedding of the scenario computation engine
(`src/app/services/computationEngine.ts`, `src/app/services/multipliers.ts`
and the constants modules `regionMultipliers`, `timeParameters`,
`workloadParameters`, `regulatoryParameters`) over the real numbers.

Modelling conventions:
* JavaScript `number` arithmetic is modelled by `ℝ` (exact real arithmetic).
* `Math.log` is `Real.log`, `Math.pow` with the integer exponent
  `year - baselineYear` is `zpow` over `ℤ`.
* The impure call `new Date().toISOString()` in `computeScenarioTCO` is
  modelled by an explicit clock argument `now : String` (state passing).
* The optional field `shockFactor?: number` is `Option ℝ`; the JavaScript
  expression `time.shockFactor || 1` maps `undefined` and the falsy value
  `0` to `1`, which `jsOrOne` reproduces.
* JavaScript division, whose result is non-finite (`NaN` or `±Infinity`)
  exactly when the divisor is `0` (for finite dividends), is modelled by
  `jsDiv : ℝ → ℝ → Option ℝ` where `none` stands for a non-finite result.
* Purely descriptive string fields of the constant tables (descriptions,
  example lists, assumption lists) are omitted; every numeric and boolean
  field is kept.
-/

open scoped Classical

noncomputable section

/-! ## Data model (`src/app/context/types.ts`) -/

inductive Region
  | US
  | EU
  | Global
deriving DecidableEq

inductive WorkloadClass
  | Low
  | Medium
  | High
deriving DecidableEq

inductive RegulatoryIntensity
  | Low
  | Medium
  | High
deriving DecidableEq

/-- Time parameters for scenario modeling (`TimeParameters` in types.ts). -/
structure TimeParameters where
  year : ℤ
  escalationRate : ℝ
  shockFactor : Option ℝ
  shockEnabled : Bool

structure WorkloadParameters where
  utilizationClass : WorkloadClass
  aiEnabled : Bool

structure SecurityParameters where
  annualInvestment : ℝ
  siemPerNode : ℝ
  iamPerUser : ℝ
  encryptionPerTB : ℝ
  incidentResponseRetainer : ℝ
  userCount : ℝ

structure RiskParameters where
  baseIncidentProbability : ℝ
  averageImpactCost : ℝ
  maxSecurityReduction : ℝ

structure ScenarioParameters where
  id : String
  name : String
  description : Option String
  region : Region
  time : TimeParameters
  workload : WorkloadParameters
  regulatoryIntensity : RegulatoryIntensity
  security : SecurityParameters
  risk : RiskParameters
  isBaseline : Bool
  createdAt : String
  updatedAt : String

/-- Multiplier values applied to cost buckets. -/
@[ext]
structure MultiplierSet where
  energy : ℝ
  labor : ℝ
  compliance : ℝ
  cooling : ℝ
  monitoring : ℝ

@[ext]
structure ComplianceBreakdownInfo where
  auditFrequency : ℝ
  costPerAudit : ℝ
  documentationHours : ℝ
  hourlyRate : ℝ

@[ext]
structure ComplianceCosts where
  auditCosts : ℝ
  documentationCosts : ℝ
  advisoryCosts : ℝ
  certificationCosts : ℝ
  total : ℝ
  breakdown : ComplianceBreakdownInfo

@[ext]
structure SecurityCosts where
  siemCosts : ℝ
  iamCosts : ℝ
  encryptionCosts : ℝ
  incidentResponseCosts : ℝ
  total : ℝ

@[ext]
structure RiskBreakdownInfo where
  baseIncidentProbability : ℝ
  securityInvestment : ℝ
  averageImpactCost : ℝ

@[ext]
structure RiskCosts where
  expectedAnnualLoss : ℝ
  adjustedProbability : ℝ
  securityReductionFactor : ℝ
  breakdown : RiskBreakdownInfo

/-! ## Engine input types (`src/app/services/computationEngine.ts`) -/

/-- Base TCO costs from existing calculation (passed from components). -/
structure BaseTCOInput where
  land : ℝ
  servers : ℝ
  storage : ℝ
  network : ℝ
  powerDistribution : ℝ
  energy : ℝ
  software : ℝ
  labor : ℝ

/-- Additional context for calculations. -/
structure ComputationContext where
  nodeCount : ℝ
  totalStorageTB : ℝ

/-! ## Breakdown result type (`ComputationBreakdown` in types.ts) -/

@[ext]
structure BreakdownBaseTCO where
  land : ℝ
  servers : ℝ
  storage : ℝ
  network : ℝ
  powerDistribution : ℝ
  energy : ℝ
  software : ℝ
  labor : ℝ
  total : ℝ

/-- `multipliers.time` in the breakdown.  The source stores
`scenario.time.shockFactor` (possibly `undefined`) when the shock is
enabled, hence the `Option`. -/
@[ext]
structure TimeMultiplierInfo where
  escalationFactor : ℝ
  shockFactor : Option ℝ

@[ext]
structure RegulatoryMultiplierInfo where
  complianceMultiplier : ℝ

@[ext]
structure BreakdownMultipliers where
  region : MultiplierSet
  time : TimeMultiplierInfo
  workload : MultiplierSet
  regulatory : RegulatoryMultiplierInfo
  combined : MultiplierSet

@[ext]
structure Adjustments where
  energyAdjustment : ℝ
  laborAdjustment : ℝ
  coolingAdjustment : ℝ
  total : ℝ

@[ext]
structure BreakdownTotals where
  baseTCO : ℝ
  adjustments : ℝ
  compliance : ℝ
  security : ℝ
  risk : ℝ
  grandTotal : ℝ

@[ext]
structure ComputationBreakdown where
  scenarioId : String
  scenarioName : String
  baseTCO : BreakdownBaseTCO
  multipliers : BreakdownMultipliers
  adjustments : Adjustments
  complianceCosts : ComplianceCosts
  securityCosts : SecurityCosts
  riskCosts : RiskCosts
  totals : BreakdownTotals
  calculatedAt : String

/-! ## Constant tables -/

structure RegionMultiplierConfig where
  energy : ℝ
  labor : ℝ
  compliance : ℝ

/-- `REGION_MULTIPLIERS` (`src/app/constants/regionMultipliers.ts`). -/
def REGION_MULTIPLIERS : Region → RegionMultiplierConfig
  | Region.US => { energy := 1.0, labor := 1.0, compliance := 1.0 }
  | Region.EU => { energy := 1.35, labor := 1.15, compliance := 1.4 }
  | Region.Global => { energy := 1.1, labor := 0.85, compliance := 1.15 }

structure TimeConfig where
  baselineYear : ℤ
  defaultEscalationRate : ℝ
  minEscalationRate : ℝ
  maxEscalationRate : ℝ
  minYear : ℤ
  maxYear : ℤ
  defaultShockFactor : ℝ
  maxShockFactor : ℝ

/-- `TIME_PARAMETERS` (`src/app/constants/timeParameters.ts`). -/
def TIME_PARAMETERS : TimeConfig where
  baselineYear := 2024
  defaultEscalationRate := 0.025
  minEscalationRate := 0
  maxEscalationRate := 0.2
  minYear := 2020
  maxYear := 2040
  defaultShockFactor := 1.5
  maxShockFactor := 3.0

structure WorkloadConfig where
  energy : ℝ
  cooling : ℝ
  monitoring : ℝ

/-- `WORKLOAD_PARAMETERS` (`src/app/constants/workloadParameters.ts`),
keyed by `WorkloadClass`; the extra `AI_accelerated` entry is the
separate constant below. -/
def WORKLOAD_PARAMETERS : WorkloadClass → WorkloadConfig
  | WorkloadClass.Low => { energy := 0.6, cooling := 0.7, monitoring := 0.8 }
  | WorkloadClass.Medium => { energy := 1.0, cooling := 1.0, monitoring := 1.0 }
  | WorkloadClass.High => { energy := 1.4, cooling := 1.3, monitoring := 1.2 }

/-- The `AI_accelerated` entry of `WORKLOAD_PARAMETERS`. -/
def WORKLOAD_PARAMETERS_AI : WorkloadConfig :=
  { energy := 1.8, cooling := 1.5, monitoring := 1.3 }

structure RegulatoryConfig where
  auditFrequency : ℝ
  documentationHours : ℝ
  complianceMultiplier : ℝ
  externalAdvisoryIncluded : Bool

/-- `REGULATORY_PARAMETERS` (`src/app/constants/regulatoryParameters.ts`). -/
def REGULATORY_PARAMETERS : RegulatoryIntensity → RegulatoryConfig
  | RegulatoryIntensity.Low =>
      { auditFrequency := 0.5, documentationHours := 200,
        complianceMultiplier := 0.7, externalAdvisoryIncluded := false }
  | RegulatoryIntensity.Medium =>
      { auditFrequency := 1.0, documentationHours := 500,
        complianceMultiplier := 1.0, externalAdvisoryIncluded := false }
  | RegulatoryIntensity.High =>
      { auditFrequency := 2.0, documentationHours := 1200,
        complianceMultiplier := 1.5, externalAdvisoryIncluded := true }

structure ComplianceBaseCosts where
  costPerAudit : ℝ
  externalAdvisory : ℝ
  certificationCosts : ℝ
  documentationHourlyRate : ℝ
  trainingPerEmployee : ℝ
  complianceTooling : ℝ

/-- `COMPLIANCE_BASE_COSTS` (`src/app/constants/regulatoryParameters.ts`). -/
def COMPLIANCE_BASE_COSTS : ComplianceBaseCosts where
  costPerAudit := 75000
  externalAdvisory := 120000
  certificationCosts := 50000
  documentationHourlyRate := 75
  trainingPerEmployee := 500
  complianceTooling := 25000

/-- `calculateEscalationFactor` (`src/app/constants/timeParameters.ts`):
clamps non-positive year offsets to a factor of exactly `1.0`. -/
def calculateEscalationFactor (targetYear : ℤ) (escalationRate : ℝ) : ℝ :=
  let years := targetYear - TIME_PARAMETERS.baselineYear
  if years ≤ 0 then 1.0 else (1 + escalationRate) ^ years

/-! ## Multipliers service (`src/app/services/multipliers.ts`) -/

/-- `getRegionMultipliers`. -/
def getRegionMultipliers (region : Region) : MultiplierSet :=
  let regionConfig := REGION_MULTIPLIERS region
  { energy := regionConfig.energy
    labor := regionConfig.labor
    compliance := regionConfig.compliance
    cooling := 1.0
    monitoring := 1.0 }

/-- The JavaScript expression `v || 1` on an optional number: `undefined`
and the falsy value `0` yield `1`. -/
def jsOrOne (v : Option ℝ) : ℝ :=
  match v with
  | none => 1
  | some x => if x = 0 then 1 else x

/-- The escalation factor computed inside `getTimeMultipliers`
(`Math.pow(1 + time.escalationRate, yearsFromBaseline)`); unlike
`calculateEscalationFactor` it is not clamped for past years. -/
def resolverEscalationFactor (time : TimeParameters) : ℝ :=
  (1 + time.escalationRate) ^ (time.year - TIME_PARAMETERS.baselineYear)

/-- `getTimeMultipliers`. -/
def getTimeMultipliers (time : TimeParameters) : MultiplierSet :=
  let escalationFactor := resolverEscalationFactor time
  let energyShockMultiplier := if time.shockEnabled then jsOrOne time.shockFactor else 1
  { energy := escalationFactor * energyShockMultiplier
    labor := escalationFactor
    compliance := 1.0
    cooling := escalationFactor
    monitoring := 1.0 }

/-- `getWorkloadMultipliers` (service version in multipliers.ts). -/
def getWorkloadMultipliers (workload : WorkloadParameters) : MultiplierSet :=
  let classConfig := WORKLOAD_PARAMETERS workload.utilizationClass
  let multipliers : MultiplierSet :=
    { energy := classConfig.energy
      labor := 1.0
      compliance := 1.0
      cooling := classConfig.cooling
      monitoring := classConfig.monitoring }
  if workload.aiEnabled then
    let aiConfig := WORKLOAD_PARAMETERS_AI
    { energy := multipliers.energy * aiConfig.energy
      labor := multipliers.labor
      compliance := multipliers.compliance
      cooling := multipliers.cooling * aiConfig.cooling
      monitoring := multipliers.monitoring * aiConfig.monitoring }
  else
    multipliers

/-- `getRegulatoryMultipliers`. -/
def getRegulatoryMultipliers (intensity : RegulatoryIntensity) : MultiplierSet :=
  let regConfig := REGULATORY_PARAMETERS intensity
  { energy := 1.0
    labor := 1.0
    compliance := regConfig.complianceMultiplier
    cooling := 1.0
    monitoring := 1.0 }

/-- `combineMultipliers`: starts from the all-`1.0` set and multiplies
each listed set in, field-wise (the `for` loop of the source). -/
def combineMultipliers (multiplierSets : List MultiplierSet) : MultiplierSet :=
  multiplierSets.foldl
    (fun combined s =>
      { energy := combined.energy * s.energy
        labor := combined.labor * s.labor
        compliance := combined.compliance * s.compliance
        cooling := combined.cooling * s.cooling
        monitoring := combined.monitoring * s.monitoring })
    { energy := 1.0, labor := 1.0, compliance := 1.0, cooling := 1.0, monitoring := 1.0 }

/-! ## Computation engine (`src/app/services/computationEngine.ts`) -/

/-- `calculateComplianceCosts`.  In the source `laborHourlyRate` has the
default value `75`; callers that use the default pass `75` explicitly
here. -/
def calculateComplianceCosts (scenario : ScenarioParameters)
    (laborHourlyRate : ℝ) : ComplianceCosts :=
  let regParams := REGULATORY_PARAMETERS scenario.regulatoryIntensity
  let baseCosts := COMPLIANCE_BASE_COSTS
  let auditCosts := regParams.auditFrequency * baseCosts.costPerAudit
  let documentationCosts := regParams.documentationHours * laborHourlyRate
  let advisoryCosts := if regParams.externalAdvisoryIncluded then baseCosts.externalAdvisory else 0
  let certificationCosts := baseCosts.certificationCosts * regParams.complianceMultiplier
  { auditCosts := auditCosts
    documentationCosts := documentationCosts
    advisoryCosts := advisoryCosts
    certificationCosts := certificationCosts
    total := auditCosts + documentationCosts + advisoryCosts + certificationCosts
    breakdown :=
      { auditFrequency := regParams.auditFrequency
        costPerAudit := baseCosts.costPerAudit
        documentationHours := regParams.documentationHours
        hourlyRate := laborHourlyRate } }

/-- `calculateSecurityCosts`. -/
def calculateSecurityCosts (scenario : ScenarioParameters)
    (context : ComputationContext) : SecurityCosts :=
  let security := scenario.security
  let siemCosts := security.siemPerNode * context.nodeCount
  let iamCosts := security.iamPerUser * security.userCount
  let encryptionCosts := security.encryptionPerTB * context.totalStorageTB
  let incidentResponseCosts := security.incidentResponseRetainer
  { siemCosts := siemCosts
    iamCosts := iamCosts
    encryptionCosts := encryptionCosts
    incidentResponseCosts := incidentResponseCosts
    total := siemCosts + iamCosts + encryptionCosts + incidentResponseCosts }

/-- `calculateRiskCosts`: bounded logarithmic security-reduction model. -/
def calculateRiskCosts (scenario : ScenarioParameters)
    (totalSecurityInvestment : ℝ) : RiskCosts :=
  let risk := scenario.risk
  let referenceInvestment : ℝ := 50000
  let maxInvestment : ℝ := 500000
  let investmentRatio :=
    Real.log (1 + totalSecurityInvestment / referenceInvestment) /
      Real.log (1 + maxInvestment / referenceInvestment)
  let securityReductionFactor :=
    min risk.maxSecurityReduction (investmentRatio * risk.maxSecurityReduction)
  let adjustedProbability := risk.baseIncidentProbability * (1 - securityReductionFactor)
  let expectedAnnualLoss := adjustedProbability * risk.averageImpactCost
  { expectedAnnualLoss := expectedAnnualLoss
    adjustedProbability := adjustedProbability
    securityReductionFactor := securityReductionFactor
    breakdown :=
      { baseIncidentProbability := risk.baseIncidentProbability
        securityInvestment := totalSecurityInvestment
        averageImpactCost := risk.averageImpactCost } }

/-- `applyMultipliers`: converts combined multipliers into dollar
adjustments against base costs. -/
def applyMultipliers (baseTCO : BaseTCOInput) (multipliers : MultiplierSet) : Adjustments :=
  let energyAdjustment := baseTCO.energy * (multipliers.energy - 1)
  let laborAdjustment := baseTCO.labor * (multipliers.labor - 1)
  let coolingPortion := baseTCO.powerDistribution * 0.4
  let coolingAdjustment := coolingPortion * (multipliers.cooling - 1)
  { energyAdjustment := energyAdjustment
    laborAdjustment := laborAdjustment
    coolingAdjustment := coolingAdjustment
    total := energyAdjustment + laborAdjustment + coolingAdjustment }

/-- `computeScenarioTCO`: the main engine pipeline.  `now` models the
impure `new Date().toISOString()` timestamp read. -/
def computeScenarioTCO (baseTCO : BaseTCOInput) (scenario : ScenarioParameters)
    (context : ComputationContext) (now : String) : ComputationBreakdown :=
  let regionMultipliers := getRegionMultipliers scenario.region
  let timeMultipliers := getTimeMultipliers scenario.time
  let workloadMultipliers := getWorkloadMultipliers scenario.workload
  let regulatoryMultipliers := getRegulatoryMultipliers scenario.regulatoryIntensity
  let combinedMultipliers :=
    combineMultipliers [regionMultipliers, timeMultipliers, workloadMultipliers]
  let adjustments := applyMultipliers baseTCO combinedMultipliers
  let complianceCosts := calculateComplianceCosts scenario 75
  let securityCosts := calculateSecurityCosts scenario context
  let totalSecurityInvestment := securityCosts.total + scenario.security.annualInvestment
  let riskCosts := calculateRiskCosts scenario totalSecurityInvestment
  let baseTCOTotal := baseTCO.land + baseTCO.servers + baseTCO.storage + baseTCO.network +
    baseTCO.powerDistribution + baseTCO.energy + baseTCO.software + baseTCO.labor
  let adjustmentsTotal := adjustments.total
  let complianceTotal := complianceCosts.total
  let securityTotal := securityCosts.total
  let riskTotal := riskCosts.expectedAnnualLoss
  let grandTotal := baseTCOTotal + adjustmentsTotal + complianceTotal + securityTotal + riskTotal
  { scenarioId := scenario.id
    scenarioName := scenario.name
    baseTCO :=
      { land := baseTCO.land, servers := baseTCO.servers, storage := baseTCO.storage
        network := baseTCO.network, powerDistribution := baseTCO.powerDistribution
        energy := baseTCO.energy, software := baseTCO.software, labor := baseTCO.labor
        total := baseTCOTotal }
    multipliers :=
      { region := regionMultipliers
        time :=
          { escalationFactor := timeMultipliers.energy
            shockFactor := if scenario.time.shockEnabled then scenario.time.shockFactor else some 1 }
        workload := workloadMultipliers
        regulatory := { complianceMultiplier := regulatoryMultipliers.compliance }
        combined := combinedMultipliers }
    adjustments := adjustments
    complianceCosts := complianceCosts
    securityCosts := securityCosts
    riskCosts := riskCosts
    totals :=
      { baseTCO := baseTCOTotal
        adjustments := adjustmentsTotal
        compliance := complianceTotal
        security := securityTotal
        risk := riskTotal
        grandTotal := grandTotal }
    calculatedAt := now }

/-- The three perturbable parameters of `calculateSensitivity`. -/
inductive SensitivityParameter
  | energy
  | labor
  | security
deriving DecidableEq

@[ext]
structure SensitivityTriple where
  low : ComputationBreakdown
  base : ComputationBreakdown
  high : ComputationBreakdown

/-- `calculateSensitivity`.  The source calls `computeScenarioTCO` three
times (base first, then low, then high), each reading the clock, hence
the three timestamp arguments.  The default `perturbationPercent` is
`0.2` in the source. -/
def calculateSensitivity (baseTCO : BaseTCOInput) (scenario : ScenarioParameters)
    (context : ComputationContext) (parameter : SensitivityParameter)
    (perturbationPercent : ℝ)
    (nowBase nowLow nowHigh : String) : SensitivityTriple :=
  let base := computeScenarioTCO baseTCO scenario context nowBase
  match parameter with
  | SensitivityParameter.energy =>
      let lowInput := { baseTCO with energy := baseTCO.energy * (1 - perturbationPercent) }
      let highInput := { baseTCO with energy := baseTCO.energy * (1 + perturbationPercent) }
      { low := computeScenarioTCO lowInput scenario context nowLow
        base := base
        high := computeScenarioTCO highInput scenario context nowHigh }
  | SensitivityParameter.labor =>
      let lowInput := { baseTCO with labor := baseTCO.labor * (1 - perturbationPercent) }
      let highInput := { baseTCO with labor := baseTCO.labor * (1 + perturbationPercent) }
      { low := computeScenarioTCO lowInput scenario context nowLow
        base := base
        high := computeScenarioTCO highInput scenario context nowHigh }
  | SensitivityParameter.security =>
      let lowScenario :=
        { scenario with security :=
            { scenario.security with
                annualInvestment := scenario.security.annualInvestment * (1 - perturbationPercent) } }
      let highScenario :=
        { scenario with security :=
            { scenario.security with
                annualInvestment := scenario.security.annualInvestment * (1 + perturbationPercent) } }
      { low := computeScenarioTCO baseTCO lowScenario context nowLow
        base := base
        high := computeScenarioTCO baseTCO highScenario context nowHigh }

/-- JavaScript floating-point division abstracted to the
finite / non-finite distinction: dividing a finite number by `0`
produces `NaN` or `±Infinity`, modelled as `none`; any other division
of finite reals is finite. -/
def jsDiv (a b : ℝ) : Option ℝ :=
  if b = 0 then none else some (a / b)

@[ext]
structure ComparisonDeltas where
  baseTCO : ℝ
  adjustments : ℝ
  compliance : ℝ
  security : ℝ
  risk : ℝ
  grandTotal : ℝ
  /-- `((B.grandTotal - A.grandTotal) / A.grandTotal) * 100`, computed
  with an unguarded JavaScript division (`jsDiv`). -/
  percentageChange : Option ℝ

structure ComparisonSide where
  id : String
  name : String
  parameters : ScenarioParameters
  breakdown : ComputationBreakdown

/-- Result of `compareScenarios`.  The `parameterDifferences` list (a
UI-facing list of human-readable strings) is not modelled; every
numeric output is. -/
structure ComparisonResult where
  scenarioA : ComparisonSide
  scenarioB : ComparisonSide
  deltas : ComparisonDeltas

/-- `compareScenarios`: per-category deltas (B − A) and the percentage
change relative to scenario A, divided without any zero guard. -/
def compareScenarios (breakdownA breakdownB : ComputationBreakdown)
    (scenarioA scenarioB : ScenarioParameters) : ComparisonResult :=
  let deltas : ComparisonDeltas :=
    { baseTCO := breakdownB.totals.baseTCO - breakdownA.totals.baseTCO
      adjustments := breakdownB.totals.adjustments - breakdownA.totals.adjustments
      compliance := breakdownB.totals.compliance - breakdownA.totals.compliance
      security := breakdownB.totals.security - breakdownA.totals.security
      risk := breakdownB.totals.risk - breakdownA.totals.risk
      grandTotal := breakdownB.totals.grandTotal - breakdownA.totals.grandTotal
      percentageChange :=
        (jsDiv (breakdownB.totals.grandTotal - breakdownA.totals.grandTotal)
          breakdownA.totals.grandTotal).map (fun r => r * 100) }
  { scenarioA :=
      { id := scenarioA.id, name := scenarioA.name
        parameters := scenarioA, breakdown := breakdownA }
    scenarioB :=
      { id := scenarioB.id, name := scenarioB.name
        parameters := scenarioB, breakdown := breakdownB }
    deltas := deltas }

/-- The zero-baseline-guarded percentage change computed by the UI
component `src/app/components/scenarioComparison.tsx` (lines 59-62):
`breakdownA.totals.grandTotal !== 0 ? delta / grandTotal * 100 : 0`. -/
def componentPercentageChange (breakdownA breakdownB : ComputationBreakdown) : ℝ :=
  if breakdownA.totals.grandTotal ≠ 0 then
    (breakdownB.totals.grandTotal - breakdownA.totals.grandTotal) /
      breakdownA.totals.grandTotal * 100
  else 0

/-! ## Input-domain predicates (spec section 3 invariants) -/

/-- The eight base dollar totals are non-negative (spec: "eight
non-negative dollar totals"). -/
def BaseTCONonneg (b : BaseTCOInput) : Prop :=
  0 ≤ b.land ∧ 0 ≤ b.servers ∧ 0 ≤ b.storage ∧ 0 ≤ b.network ∧
  0 ≤ b.powerDistribution ∧ 0 ≤ b.energy ∧ 0 ≤ b.software ∧ 0 ≤ b.labor

def ContextNonneg (ctx : ComputationContext) : Prop :=
  0 ≤ ctx.nodeCount ∧ 0 ≤ ctx.totalStorageTB

def SecurityNonneg (sec : SecurityParameters) : Prop :=
  0 ≤ sec.annualInvestment ∧ 0 ≤ sec.siemPerNode ∧ 0 ≤ sec.iamPerUser ∧
  0 ≤ sec.encryptionPerTB ∧ 0 ≤ sec.incidentResponseRetainer ∧ 0 ≤ sec.userCount

def RiskNonneg (risk : RiskParameters) : Prop :=
  0 ≤ risk.baseIncidentProbability ∧ 0 ≤ risk.averageImpactCost ∧
  0 ≤ risk.maxSecurityReduction

/-- The optional shock factor, when present, is non-negative (the spec
constrains it to `[1,3]` by convention; non-negativity is all the
monotonicity arguments need). -/
def ShockOK (t : TimeParameters) : Prop :=
  ∀ v, t.shockFactor = some v → 0 ≤ v

/-! ## Spec-modelled intensity orders (for the monotonicity claim)

The spec speaks of moving an axis "to a strictly more intense setting".
The following orders formalise that wording; they are read off the spec,
not the code. -/

/-- Modelled from the spec: one region setting is at most as intense as
another when every one of its multiplier entries is at most the
other's (field-wise comparison of the `REGION_MULTIPLIERS` triples). -/
def regionIntensityLE (r1 r2 : Region) : Prop :=
  (REGION_MULTIPLIERS r1).energy ≤ (REGION_MULTIPLIERS r2).energy ∧
  (REGION_MULTIPLIERS r1).labor ≤ (REGION_MULTIPLIERS r2).labor ∧
  (REGION_MULTIPLIERS r1).compliance ≤ (REGION_MULTIPLIERS r2).compliance

/-- Modelled from the spec: the three workload utilization classes in
increasing intensity order. -/
def workloadClassRank : WorkloadClass → ℕ
  | WorkloadClass.Low => 0
  | WorkloadClass.Medium => 1
  | WorkloadClass.High => 2

/-- Modelled from the spec: the three regulatory intensity levels in
increasing intensity order. -/
def regulatoryIntensityRank : RegulatoryIntensity → ℕ
  | RegulatoryIntensity.Low => 0
  | RegulatoryIntensity.Medium => 1
  | RegulatoryIntensity.High => 2

/-! ## Concrete instances used by counterexamples and witnesses -/

def exBaseZero : BaseTCOInput :=
  { land := 0, servers := 0, storage := 0, network := 0,
    powerDistribution := 0, energy := 0, software := 0, labor := 0 }

def exCtxZero : ComputationContext := { nodeCount := 0, totalStorageTB := 0 }

/-- A baseline-style scenario: US, year 2024, no escalation, no shock,
Medium workload without AI, Low regulatory intensity, all itemized
security rates zero, risk parameters `p = 1`, impact `100`,
`maxSecurityReduction = 1/2`. -/
def exScenario : ScenarioParameters :=
  { id := "s1", name := "baseline", description := none,
    region := Region.US,
    time := { year := 2024, escalationRate := 0, shockFactor := none, shockEnabled := false },
    workload := { utilizationClass := WorkloadClass.Medium, aiEnabled := false },
    regulatoryIntensity := RegulatoryIntensity.Low,
    security := { annualInvestment := 0, siemPerNode := 0, iamPerUser := 0,
                  encryptionPerTB := 0, incidentResponseRetainer := 0, userCount := 0 },
    risk := { baseIncidentProbability := 1, averageImpactCost := 100,
              maxSecurityReduction := 1/2 },
    isBaseline := true, createdAt := "c", updatedAt := "u" }

/-- `exScenario` with the security investment raised to `500000`
(the saturation point of the risk model). -/
def exScenarioHighInv : ScenarioParameters :=
  { exScenario with security := { exScenario.security with annualInvestment := 500000 } }

/-- A caller-supplied breakdown whose grand total is `0` (the
zero-baseline edge case of the comparator). -/
def exBreakdownZero : ComputationBreakdown :=
  { scenarioId := "A", scenarioName := "A",
    baseTCO := { land := 0, servers := 0, storage := 0, network := 0,
                 powerDistribution := 0, energy := 0, software := 0, labor := 0, total := 0 },
    multipliers :=
      { region := { energy := 1, labor := 1, compliance := 1, cooling := 1, monitoring := 1 },
        time := { escalationFactor := 1, shockFactor := some 1 },
        workload := { energy := 1, labor := 1, compliance := 1, cooling := 1, monitoring := 1 },
        regulatory := { complianceMultiplier := 1 },
        combined := { energy := 1, labor := 1, compliance := 1, cooling := 1, monitoring := 1 } },
    adjustments := { energyAdjustment := 0, laborAdjustment := 0, coolingAdjustment := 0, total := 0 },
    complianceCosts :=
      { auditCosts := 0, documentationCosts := 0, advisoryCosts := 0, certificationCosts := 0,
        total := 0,
        breakdown := { auditFrequency := 0, costPerAudit := 0, documentationHours := 0, hourlyRate := 0 } },
    securityCosts :=
      { siemCosts := 0, iamCosts := 0, encryptionCosts := 0, incidentResponseCosts := 0, total := 0 },
    riskCosts :=
      { expectedAnnualLoss := 0, adjustedProbability := 0, securityReductionFactor := 0,
        breakdown := { baseIncidentProbability := 0, securityInvestment := 0, averageImpactCost := 0 } },
    totals := { baseTCO := 0, adjustments := 0, compliance := 0, security := 0, risk := 0, grandTotal := 0 },
    calculatedAt := "tA" }

/-- A second caller-supplied breakdown, with grand total `100`. -/
def exBreakdownHundred : ComputationBreakdown :=
  { exBreakdownZero with
      scenarioId := "B", scenarioName := "B",
      totals := { baseTCO := 100, adjustments := 0, compliance := 0, security := 0, risk := 0,
                  grandTotal := 100 },
      calculatedAt := "tB" }

/-! ## Helper lemmas: the multiplier combiner -/

theorem combineMultipliers_foldl (l : List MultiplierSet) (c : MultiplierSet) :
    List.foldl
      (fun combined s =>
        { energy := combined.energy * s.energy
          labor := combined.labor * s.labor
          compliance := combined.compliance * s.compliance
          cooling := combined.cooling * s.cooling
          monitoring := combined.monitoring * s.monitoring })
      c l =
    { energy := c.energy * (l.map MultiplierSet.energy).prod
      labor := c.labor * (l.map MultiplierSet.labor).prod
      compliance := c.compliance * (l.map MultiplierSet.compliance).prod
      cooling := c.cooling * (l.map MultiplierSet.cooling).prod
      monitoring := c.monitoring * (l.map MultiplierSet.monitoring).prod } := by
  induction l generalizing c with
  | nil => simp
  | cons x xs ih => simp [ih, mul_assoc]

theorem combineMultipliers_eq_prod (l : List MultiplierSet) :
    combineMultipliers l =
      { energy := (l.map MultiplierSet.energy).prod
        labor := (l.map MultiplierSet.labor).prod
        compliance := (l.map MultiplierSet.compliance).prod
        cooling := (l.map MultiplierSet.cooling).prod
        monitoring := (l.map MultiplierSet.monitoring).prod } := by
  unfold combineMultipliers
  rw [combineMultipliers_foldl]
  norm_num

/-- The combined multiplier of three sets, field by field. -/
theorem combineMultipliers_three (a b c : MultiplierSet) :
    combineMultipliers [a, b, c] =
      { energy := a.energy * b.energy * c.energy
        labor := a.labor * b.labor * c.labor
        compliance := a.compliance * b.compliance * c.compliance
        cooling := a.cooling * b.cooling * c.cooling
        monitoring := a.monitoring * b.monitoring * c.monitoring } := by
  rw [combineMultipliers_eq_prod]
  simp [mul_assoc]

/-! ## Helper lemmas: the risk model -/

theorem securityReductionFactor_eq (s : ScenarioParameters) (I : ℝ) :
    (calculateRiskCosts s I).securityReductionFactor =
      min s.risk.maxSecurityReduction
        (Real.log (1 + I / 50000) / Real.log (1 + 500000 / 50000) *
          s.risk.maxSecurityReduction) := rfl

theorem expectedAnnualLoss_eq (s : ScenarioParameters) (I : ℝ) :
    (calculateRiskCosts s I).expectedAnnualLoss =
      s.risk.baseIncidentProbability *
        (1 - (calculateRiskCosts s I).securityReductionFactor) *
        s.risk.averageImpactCost := rfl

theorem investmentRatio_nonneg (I : ℝ) (hI : 0 ≤ I) :
    0 ≤ Real.log (1 + I / 50000) / Real.log (1 + 500000 / 50000) := by
  apply div_nonneg
  · apply Real.log_nonneg
    have : 0 ≤ I / 50000 := by positivity
    linarith
  · apply Real.log_nonneg
    norm_num

theorem investmentRatio_mono (I₁ I₂ : ℝ) (h1 : 0 ≤ I₁) (h12 : I₁ ≤ I₂) :
    Real.log (1 + I₁ / 50000) / Real.log (1 + 500000 / 50000) ≤
      Real.log (1 + I₂ / 50000) / Real.log (1 + 500000 / 50000) := by
  have hden : 0 < Real.log (1 + 500000 / 50000) := by
    apply Real.log_pos
    norm_num
  have hx : (0:ℝ) < 1 + I₁ / 50000 := by
    have := div_nonneg h1 (by norm_num : (0:ℝ) ≤ 50000)
    linarith
  have harg : 1 + I₁ / 50000 ≤ 1 + I₂ / 50000 := by
    have : I₁ / 50000 ≤ I₂ / 50000 := by linarith
    linarith
  exact (div_le_div_iff_of_pos_right hden).mpr (Real.log_le_log hx harg)

theorem securityReductionFactor_nonneg (s : ScenarioParameters) (I : ℝ)
    (hmax : 0 ≤ s.risk.maxSecurityReduction) (hI : 0 ≤ I) :
    0 ≤ (calculateRiskCosts s I).securityReductionFactor := by
  rw [securityReductionFactor_eq]
  exact le_min hmax (mul_nonneg (investmentRatio_nonneg I hI) hmax)

theorem securityReductionFactor_le_max (s : ScenarioParameters) (I : ℝ) :
    (calculateRiskCosts s I).securityReductionFactor ≤ s.risk.maxSecurityReduction := by
  rw [securityReductionFactor_eq]
  exact min_le_left _ _

theorem securityReductionFactor_mono (s : ScenarioParameters) (I₁ I₂ : ℝ)
    (hmax : 0 ≤ s.risk.maxSecurityReduction) (h1 : 0 ≤ I₁) (h12 : I₁ ≤ I₂) :
    (calculateRiskCosts s I₁).securityReductionFactor ≤
      (calculateRiskCosts s I₂).securityReductionFactor := by
  rw [securityReductionFactor_eq, securityReductionFactor_eq]
  exact min_le_min le_rfl
    (mul_le_mul_of_nonneg_right (investmentRatio_mono I₁ I₂ h1 h12) hmax)

theorem securityReductionFactor_at_zero (s : ScenarioParameters)
    (hmax : 0 ≤ s.risk.maxSecurityReduction) :
    (calculateRiskCosts s 0).securityReductionFactor = 0 := by
  rw [securityReductionFactor_eq]
  norm_num [Real.log_one]
  exact hmax

theorem securityReductionFactor_at_saturation (s : ScenarioParameters) :
    (calculateRiskCosts s 500000).securityReductionFactor =
      s.risk.maxSecurityReduction := by
  rw [securityReductionFactor_eq]
  have h11 : Real.log (1 + 500000 / 50000) ≠ 0 :=
    ne_of_gt (Real.log_pos (by norm_num))
  rw [div_self h11, one_mul, min_self]

theorem expectedAnnualLoss_anti (s : ScenarioParameters) (I₁ I₂ : ℝ)
    (hp : 0 ≤ s.risk.baseIncidentProbability)
    (hc : 0 ≤ s.risk.averageImpactCost)
    (hmax : 0 ≤ s.risk.maxSecurityReduction)
    (h1 : 0 ≤ I₁) (h12 : I₁ ≤ I₂) :
    (calculateRiskCosts s I₂).expectedAnnualLoss ≤
      (calculateRiskCosts s I₁).expectedAnnualLoss := by
  rw [expectedAnnualLoss_eq, expectedAnnualLoss_eq]
  have hf := securityReductionFactor_mono s I₁ I₂ hmax h1 h12
  have h2 : s.risk.baseIncidentProbability *
      (1 - (calculateRiskCosts s I₂).securityReductionFactor) ≤
      s.risk.baseIncidentProbability *
      (1 - (calculateRiskCosts s I₁).securityReductionFactor) :=
    mul_le_mul_of_nonneg_left (by linarith) hp
  exact mul_le_mul_of_nonneg_right h2 hc

theorem expectedAnnualLoss_nonneg (s : ScenarioParameters) (I : ℝ)
    (hp : 0 ≤ s.risk.baseIncidentProbability)
    (hc : 0 ≤ s.risk.averageImpactCost)
    (hmax1 : s.risk.maxSecurityReduction ≤ 1) :
    0 ≤ (calculateRiskCosts s I).expectedAnnualLoss := by
  rw [expectedAnnualLoss_eq]
  have hle := securityReductionFactor_le_max s I
  have : 0 ≤ 1 - (calculateRiskCosts s I).securityReductionFactor := by linarith
  exact mul_nonneg (mul_nonneg hp this) hc

/-! ## Helper lemmas: time, region and workload multipliers -/

theorem resolverEscalationFactor_pos (t : TimeParameters)
    (hr : 0 ≤ t.escalationRate) : 0 < resolverEscalationFactor t :=
  zpow_pos (by linarith) _

theorem resolverEscalationFactor_mono (t : TimeParameters) (y₁ y₂ : ℤ)
    (hr : 0 ≤ t.escalationRate) (h : y₁ ≤ y₂) :
    resolverEscalationFactor { t with year := y₁ } ≤
      resolverEscalationFactor { t with year := y₂ } :=
  zpow_le_zpow_right₀ (by simp only; linarith) (by simp only; omega)

/-- The energy shock multiplier computed inside `getTimeMultipliers`. -/
theorem shockMultiplier_nonneg (t : TimeParameters) (hs : ShockOK t) :
    0 ≤ (if t.shockEnabled then jsOrOne t.shockFactor else 1) := by
  rcases t.shockEnabled with _ | _
  · norm_num
  · simp only [if_true]
    unfold jsOrOne
    rcases hsf : t.shockFactor with _ | v
    · norm_num
    · have hv := hs v hsf
      by_cases hv0 : v = 0 <;> simp [hv0] <;> linarith

theorem getTimeMultipliers_energy (t : TimeParameters) :
    (getTimeMultipliers t).energy =
      resolverEscalationFactor t * (if t.shockEnabled then jsOrOne t.shockFactor else 1) := rfl

theorem getTimeMultipliers_labor (t : TimeParameters) :
    (getTimeMultipliers t).labor = resolverEscalationFactor t := rfl

theorem getTimeMultipliers_cooling (t : TimeParameters) :
    (getTimeMultipliers t).cooling = resolverEscalationFactor t := rfl

theorem timeMultipliers_energy_nonneg (t : TimeParameters)
    (hr : 0 ≤ t.escalationRate) (hs : ShockOK t) :
    0 ≤ (getTimeMultipliers t).energy := by
  rw [getTimeMultipliers_energy]
  exact mul_nonneg (le_of_lt (resolverEscalationFactor_pos t hr)) (shockMultiplier_nonneg t hs)

theorem timeMultipliers_labor_nonneg (t : TimeParameters)
    (hr : 0 ≤ t.escalationRate) : 0 ≤ (getTimeMultipliers t).labor :=
  le_of_lt (resolverEscalationFactor_pos t hr)

theorem timeMultipliers_cooling_nonneg (t : TimeParameters)
    (hr : 0 ≤ t.escalationRate) : 0 ≤ (getTimeMultipliers t).cooling :=
  le_of_lt (resolverEscalationFactor_pos t hr)

theorem regionMultipliers_energy_nonneg (r : Region) :
    0 ≤ (getRegionMultipliers r).energy := by
  cases r <;> norm_num [getRegionMultipliers, REGION_MULTIPLIERS]

theorem regionMultipliers_labor_nonneg (r : Region) :
    0 ≤ (getRegionMultipliers r).labor := by
  cases r <;> norm_num [getRegionMultipliers, REGION_MULTIPLIERS]

theorem workloadMultipliers_energy_nonneg (w : WorkloadParameters) :
    0 ≤ (getWorkloadMultipliers w).energy := by
  rcases w with ⟨c, ai⟩
  cases c <;> cases ai <;>
    norm_num [getWorkloadMultipliers, WORKLOAD_PARAMETERS, WORKLOAD_PARAMETERS_AI]

theorem workloadMultipliers_cooling_nonneg (w : WorkloadParameters) :
    0 ≤ (getWorkloadMultipliers w).cooling := by
  rcases w with ⟨c, ai⟩
  cases c <;> cases ai <;>
    norm_num [getWorkloadMultipliers, WORKLOAD_PARAMETERS, WORKLOAD_PARAMETERS_AI]

theorem workloadMultipliers_energy_mono (c₁ c₂ : WorkloadClass) (ai : Bool)
    (h : workloadClassRank c₁ ≤ workloadClassRank c₂) :
    (getWorkloadMultipliers { utilizationClass := c₁, aiEnabled := ai }).energy ≤
      (getWorkloadMultipliers { utilizationClass := c₂, aiEnabled := ai }).energy := by
  cases c₁ <;> cases c₂ <;> simp [workloadClassRank] at h ⊢ <;> cases ai <;>
    norm_num [getWorkloadMultipliers, WORKLOAD_PARAMETERS, WORKLOAD_PARAMETERS_AI]

theorem workloadMultipliers_cooling_mono (c₁ c₂ : WorkloadClass) (ai : Bool)
    (h : workloadClassRank c₁ ≤ workloadClassRank c₂) :
    (getWorkloadMultipliers { utilizationClass := c₁, aiEnabled := ai }).cooling ≤
      (getWorkloadMultipliers { utilizationClass := c₂, aiEnabled := ai }).cooling := by
  cases c₁ <;> cases c₂ <;> simp [workloadClassRank] at h ⊢ <;> cases ai <;>
    norm_num [getWorkloadMultipliers, WORKLOAD_PARAMETERS, WORKLOAD_PARAMETERS_AI]

theorem workloadMultipliers_labor_eq_one (w : WorkloadParameters) :
    (getWorkloadMultipliers w).labor = 1 := by
  rcases w with ⟨c, ai⟩
  cases c <;> cases ai <;>
    norm_num [getWorkloadMultipliers, WORKLOAD_PARAMETERS, WORKLOAD_PARAMETERS_AI]

/-! ## Helper lemmas: the adjustment applier and the grand total -/

theorem applyMultipliers_total_mono (b : BaseTCOInput) (hb : BaseTCONonneg b)
    (m₁ m₂ : MultiplierSet)
    (he : m₁.energy ≤ m₂.energy) (hl : m₁.labor ≤ m₂.labor)
    (hc : m₁.cooling ≤ m₂.cooling) :
    (applyMultipliers b m₁).total ≤ (applyMultipliers b m₂).total := by
  obtain ⟨_, _, _, _, hpd, hen, _, hla⟩ := hb
  simp only [applyMultipliers]
  have h1 : b.energy * (m₁.energy - 1) ≤ b.energy * (m₂.energy - 1) :=
    mul_le_mul_of_nonneg_left (by linarith) hen
  have h2 : b.labor * (m₁.labor - 1) ≤ b.labor * (m₂.labor - 1) :=
    mul_le_mul_of_nonneg_left (by linarith) hla
  have hpd4 : (0:ℝ) ≤ b.powerDistribution * 0.4 := by
    apply mul_nonneg hpd
    norm_num
  have h3 : b.powerDistribution * 0.4 * (m₁.cooling - 1) ≤
      b.powerDistribution * 0.4 * (m₂.cooling - 1) :=
    mul_le_mul_of_nonneg_left (by linarith) hpd4
  linarith

/-- The grand total of a computed breakdown, written out in terms of the
layer functions (definitional). -/
theorem grandTotal_eq (b : BaseTCOInput) (s : ScenarioParameters)
    (ctx : ComputationContext) (now : String) :
    (computeScenarioTCO b s ctx now).totals.grandTotal =
      (b.land + b.servers + b.storage + b.network + b.powerDistribution +
        b.energy + b.software + b.labor) +
      (applyMultipliers b (combineMultipliers
        [getRegionMultipliers s.region, getTimeMultipliers s.time,
         getWorkloadMultipliers s.workload])).total +
      (calculateComplianceCosts s 75).total +
      (calculateSecurityCosts s ctx).total +
      (calculateRiskCosts s
        ((calculateSecurityCosts s ctx).total + s.security.annualInvestment)).expectedAnnualLoss := rfl

theorem regionMultipliers_cooling_nonneg (r : Region) :
    0 ≤ (getRegionMultipliers r).cooling := by
  norm_num [getRegionMultipliers]

theorem workloadMultipliers_labor_nonneg (w : WorkloadParameters) :
    0 ≤ (getWorkloadMultipliers w).labor := by
  rw [workloadMultipliers_labor_eq_one]
  norm_num

theorem securityCosts_total_nonneg (s : ScenarioParameters) (ctx : ComputationContext)
    (hsec : SecurityNonneg s.security) (hctx : ContextNonneg ctx) :
    0 ≤ (calculateSecurityCosts s ctx).total := by
  obtain ⟨_, hsiem, hiam, henc, hret, husr⟩ := hsec
  obtain ⟨hnode, htb⟩ := hctx
  simp only [calculateSecurityCosts]
  have h1 := mul_nonneg hsiem hnode
  have h2 := mul_nonneg hiam husr
  have h3 := mul_nonneg henc htb
  linarith

/-- If the adjustments layer does not increase, the compliance layer does
not increase, the security layer is unchanged and the risk layer does
not increase, then the grand total does not increase. -/
theorem grandTotal_mono_of_layers (b : BaseTCOInput) (s₁ s₂ : ScenarioParameters)
    (ctx : ComputationContext) (now : String)
    (hadj : (applyMultipliers b (combineMultipliers
        [getRegionMultipliers s₁.region, getTimeMultipliers s₁.time,
         getWorkloadMultipliers s₁.workload])).total ≤
      (applyMultipliers b (combineMultipliers
        [getRegionMultipliers s₂.region, getTimeMultipliers s₂.time,
         getWorkloadMultipliers s₂.workload])).total)
    (hcomp : (calculateComplianceCosts s₁ 75).total ≤ (calculateComplianceCosts s₂ 75).total)
    (hsec : (calculateSecurityCosts s₁ ctx).total = (calculateSecurityCosts s₂ ctx).total)
    (hrisk : (calculateRiskCosts s₁
        ((calculateSecurityCosts s₁ ctx).total + s₁.security.annualInvestment)).expectedAnnualLoss ≤
      (calculateRiskCosts s₂
        ((calculateSecurityCosts s₂ ctx).total + s₂.security.annualInvestment)).expectedAnnualLoss) :
    (computeScenarioTCO b s₁ ctx now).totals.grandTotal ≤
      (computeScenarioTCO b s₂ ctx now).totals.grandTotal := by
  rw [grandTotal_eq, grandTotal_eq]
  linarith

/-- Moving the region to a field-wise more intense setting does not
decrease the grand total. -/
theorem grand_mono_region (b : BaseTCOInput) (s : ScenarioParameters)
    (ctx : ComputationContext) (now : String) (hb : BaseTCONonneg b)
    (hr : 0 ≤ s.time.escalationRate) (hs : ShockOK s.time)
    (r₁ r₂ : Region) (h12 : regionIntensityLE r₁ r₂) :
    (computeScenarioTCO b { s with region := r₁ } ctx now).totals.grandTotal ≤
      (computeScenarioTCO b { s with region := r₂ } ctx now).totals.grandTotal := by
  obtain ⟨hE, hL, _⟩ := h12
  apply grandTotal_mono_of_layers
  · have he : (combineMultipliers [getRegionMultipliers r₁, getTimeMultipliers s.time,
        getWorkloadMultipliers s.workload]).energy ≤
        (combineMultipliers [getRegionMultipliers r₂, getTimeMultipliers s.time,
        getWorkloadMultipliers s.workload]).energy := by
      rw [combineMultipliers_three, combineMultipliers_three]
      apply mul_le_mul_of_nonneg_right _ (workloadMultipliers_energy_nonneg _)
      exact mul_le_mul_of_nonneg_right hE (timeMultipliers_energy_nonneg s.time hr hs)
    have hl : (combineMultipliers [getRegionMultipliers r₁, getTimeMultipliers s.time,
        getWorkloadMultipliers s.workload]).labor ≤
        (combineMultipliers [getRegionMultipliers r₂, getTimeMultipliers s.time,
        getWorkloadMultipliers s.workload]).labor := by
      rw [combineMultipliers_three, combineMultipliers_three]
      apply mul_le_mul_of_nonneg_right _ (workloadMultipliers_labor_nonneg _)
      exact mul_le_mul_of_nonneg_right hL (timeMultipliers_labor_nonneg s.time hr)
    have hc : (combineMultipliers [getRegionMultipliers r₁, getTimeMultipliers s.time,
        getWorkloadMultipliers s.workload]).cooling ≤
        (combineMultipliers [getRegionMultipliers r₂, getTimeMultipliers s.time,
        getWorkloadMultipliers s.workload]).cooling := by
      rw [combineMultipliers_three, combineMultipliers_three]
      exact le_rfl
    exact applyMultipliers_total_mono b hb _ _ he hl hc
  · exact le_rfl
  · rfl
  · exact le_rfl

/-- Moving the scenario year forward (all else fixed, non-negative
escalation rate) does not decrease the grand total. -/
theorem grand_mono_year (b : BaseTCOInput) (s : ScenarioParameters)
    (ctx : ComputationContext) (now : String) (hb : BaseTCONonneg b)
    (hr : 0 ≤ s.time.escalationRate) (hs : ShockOK s.time)
    (y₁ y₂ : ℤ) (h12 : y₁ ≤ y₂) :
    (computeScenarioTCO b { s with time := { s.time with year := y₁ } } ctx now).totals.grandTotal ≤
      (computeScenarioTCO b { s with time := { s.time with year := y₂ } } ctx now).totals.grandTotal := by
  have hesc := resolverEscalationFactor_mono s.time y₁ y₂ hr h12
  apply grandTotal_mono_of_layers
  · have he : (combineMultipliers [getRegionMultipliers s.region,
        getTimeMultipliers { s.time with year := y₁ }, getWorkloadMultipliers s.workload]).energy ≤
        (combineMultipliers [getRegionMultipliers s.region,
        getTimeMultipliers { s.time with year := y₂ }, getWorkloadMultipliers s.workload]).energy := by
      rw [combineMultipliers_three, combineMultipliers_three,
        getTimeMultipliers_energy, getTimeMultipliers_energy]
      apply mul_le_mul_of_nonneg_right _ (workloadMultipliers_energy_nonneg _)
      show (getRegionMultipliers s.region).energy *
          (resolverEscalationFactor { s.time with year := y₁ } *
            (if s.time.shockEnabled then jsOrOne s.time.shockFactor else 1)) ≤
        (getRegionMultipliers s.region).energy *
          (resolverEscalationFactor { s.time with year := y₂ } *
            (if s.time.shockEnabled then jsOrOne s.time.shockFactor else 1))
      apply mul_le_mul_of_nonneg_left _ (regionMultipliers_energy_nonneg _)
      exact mul_le_mul_of_nonneg_right hesc (shockMultiplier_nonneg s.time hs)
    have hl : (combineMultipliers [getRegionMultipliers s.region,
        getTimeMultipliers { s.time with year := y₁ }, getWorkloadMultipliers s.workload]).labor ≤
        (combineMultipliers [getRegionMultipliers s.region,
        getTimeMultipliers { s.time with year := y₂ }, getWorkloadMultipliers s.workload]).labor := by
      rw [combineMultipliers_three, combineMultipliers_three,
        getTimeMultipliers_labor, getTimeMultipliers_labor]
      apply mul_le_mul_of_nonneg_right _ (workloadMultipliers_labor_nonneg _)
      exact mul_le_mul_of_nonneg_left hesc (regionMultipliers_labor_nonneg _)
    have hc : (combineMultipliers [getRegionMultipliers s.region,
        getTimeMultipliers { s.time with year := y₁ }, getWorkloadMultipliers s.workload]).cooling ≤
        (combineMultipliers [getRegionMultipliers s.region,
        getTimeMultipliers { s.time with year := y₂ }, getWorkloadMultipliers s.workload]).cooling := by
      rw [combineMultipliers_three, combineMultipliers_three,
        getTimeMultipliers_cooling, getTimeMultipliers_cooling]
      apply mul_le_mul_of_nonneg_right _ (workloadMultipliers_cooling_nonneg _)
      exact mul_le_mul_of_nonneg_left hesc (regionMultipliers_cooling_nonneg _)
    exact applyMultipliers_total_mono b hb _ _ he hl hc
  · exact le_rfl
  · rfl
  · exact le_rfl

/-- Moving the workload class to a more intense setting (AI flag fixed)
does not decrease the grand total. -/
theorem grand_mono_workload (b : BaseTCOInput) (s : ScenarioParameters)
    (ctx : ComputationContext) (now : String) (hb : BaseTCONonneg b)
    (hr : 0 ≤ s.time.escalationRate) (hs : ShockOK s.time)
    (c₁ c₂ : WorkloadClass) (h12 : workloadClassRank c₁ ≤ workloadClassRank c₂) :
    (computeScenarioTCO b { s with workload := { s.workload with utilizationClass := c₁ } } ctx now).totals.grandTotal ≤
      (computeScenarioTCO b { s with workload := { s.workload with utilizationClass := c₂ } } ctx now).totals.grandTotal := by
  apply grandTotal_mono_of_layers
  · have he : (combineMultipliers [getRegionMultipliers s.region, getTimeMultipliers s.time,
        getWorkloadMultipliers { s.workload with utilizationClass := c₁ }]).energy ≤
        (combineMultipliers [getRegionMultipliers s.region, getTimeMultipliers s.time,
        getWorkloadMultipliers { s.workload with utilizationClass := c₂ }]).energy := by
      rw [combineMultipliers_three, combineMultipliers_three]
      apply mul_le_mul_of_nonneg_left _
        (mul_nonneg (regionMultipliers_energy_nonneg _) (timeMultipliers_energy_nonneg s.time hr hs))
      exact workloadMultipliers_energy_mono c₁ c₂ s.workload.aiEnabled h12
    have hl : (combineMultipliers [getRegionMultipliers s.region, getTimeMultipliers s.time,
        getWorkloadMultipliers { s.workload with utilizationClass := c₁ }]).labor ≤
        (combineMultipliers [getRegionMultipliers s.region, getTimeMultipliers s.time,
        getWorkloadMultipliers { s.workload with utilizationClass := c₂ }]).labor := by
      rw [combineMultipliers_three, combineMultipliers_three,
        workloadMultipliers_labor_eq_one, workloadMultipliers_labor_eq_one]
    have hc : (combineMultipliers [getRegionMultipliers s.region, getTimeMultipliers s.time,
        getWorkloadMultipliers { s.workload with utilizationClass := c₁ }]).cooling ≤
        (combineMultipliers [getRegionMultipliers s.region, getTimeMultipliers s.time,
        getWorkloadMultipliers { s.workload with utilizationClass := c₂ }]).cooling := by
      rw [combineMultipliers_three, combineMultipliers_three]
      apply mul_le_mul_of_nonneg_left _
        (mul_nonneg (regionMultipliers_cooling_nonneg _) (timeMultipliers_cooling_nonneg s.time hr))
      exact workloadMultipliers_cooling_mono c₁ c₂ s.workload.aiEnabled h12
    exact applyMultipliers_total_mono b hb _ _ he hl hc
  · exact le_rfl
  · rfl
  · exact le_rfl

theorem complianceCosts_total_mono (s : ScenarioParameters)
    (i₁ i₂ : RegulatoryIntensity)
    (h : regulatoryIntensityRank i₁ ≤ regulatoryIntensityRank i₂) :
    (calculateComplianceCosts { s with regulatoryIntensity := i₁ } 75).total ≤
      (calculateComplianceCosts { s with regulatoryIntensity := i₂ } 75).total := by
  cases i₁ <;> cases i₂ <;> simp [regulatoryIntensityRank] at h ⊢ <;>
    norm_num [calculateComplianceCosts, REGULATORY_PARAMETERS, COMPLIANCE_BASE_COSTS]

/-- Moving the regulatory intensity to a more intense setting does not
decrease the grand total. -/
theorem grand_mono_regulatory (b : BaseTCOInput) (s : ScenarioParameters)
    (ctx : ComputationContext) (now : String)
    (i₁ i₂ : RegulatoryIntensity)
    (h12 : regulatoryIntensityRank i₁ ≤ regulatoryIntensityRank i₂) :
    (computeScenarioTCO b { s with regulatoryIntensity := i₁ } ctx now).totals.grandTotal ≤
      (computeScenarioTCO b { s with regulatoryIntensity := i₂ } ctx now).totals.grandTotal := by
  apply grandTotal_mono_of_layers
  · exact le_rfl
  · exact complianceCosts_total_mono s i₁ i₂ h12
  · rfl
  · exact le_rfl

/-- Raising the general security investment (all else fixed) does not
increase the grand total: the investment is not a cost line item, it
only lowers the expected annual loss. -/
theorem grand_anti_investment (b : BaseTCOInput) (s : ScenarioParameters)
    (ctx : ComputationContext) (now : String)
    (hrisk : RiskNonneg s.risk) (hsec : SecurityNonneg s.security)
    (hctx : ContextNonneg ctx)
    (v₁ v₂ : ℝ) (hv1 : 0 ≤ v₁) (h12 : v₁ ≤ v₂) :
    (computeScenarioTCO b { s with security := { s.security with annualInvestment := v₂ } } ctx now).totals.grandTotal ≤
      (computeScenarioTCO b { s with security := { s.security with annualInvestment := v₁ } } ctx now).totals.grandTotal := by
  obtain ⟨hp, hc, hmax⟩ := hrisk
  have hst : 0 ≤ (calculateSecurityCosts s ctx).total :=
    securityCosts_total_nonneg s ctx hsec hctx
  apply grandTotal_mono_of_layers
  · exact le_rfl
  · exact le_rfl
  · rfl
  · exact expectedAnnualLoss_anti s ((calculateSecurityCosts s ctx).total + v₁)
      ((calculateSecurityCosts s ctx).total + v₂) hp hc hmax
      (by linarith) (by linarith)

/-! ## Claim theorems -/

/-- C1: for every `BaseTCOInput`, `ScenarioParameters` and
`ComputationContext`, the breakdown returned by `computeScenarioTCO`
satisfies `totals.grandTotal = totals.baseTCO + totals.adjustments +
totals.compliance + totals.security + totals.risk` exactly, where
`totals.baseTCO` is the sum of the eight `BaseTCOInput` fields and
`totals.risk` is `riskCosts.expectedAnnualLoss`. -/
theorem C1_decomposition_identity (b : BaseTCOInput) (s : ScenarioParameters)
    (ctx : ComputationContext) (now : String) :
    (computeScenarioTCO b s ctx now).totals.grandTotal =
      (computeScenarioTCO b s ctx now).totals.baseTCO +
      (computeScenarioTCO b s ctx now).totals.adjustments +
      (computeScenarioTCO b s ctx now).totals.compliance +
      (computeScenarioTCO b s ctx now).totals.security +
      (computeScenarioTCO b s ctx now).totals.risk ∧
    (computeScenarioTCO b s ctx now).totals.baseTCO =
      b.land + b.servers + b.storage + b.network + b.powerDistribution +
        b.energy + b.software + b.labor ∧
    (computeScenarioTCO b s ctx now).totals.risk =
      (computeScenarioTCO b s ctx now).riskCosts.expectedAnnualLoss :=
  ⟨rfl, rfl, rfl⟩

/-- C3: for every scenario with `maxSecurityReduction ∈ [0,1]` and
investments `0 ≤ I₁ ≤ I₂`, the security reduction factor of
`calculateRiskCosts` lies in `[0, maxSecurityReduction]`, is
non-decreasing in the investment, is `0` at zero investment, and equals
exactly `maxSecurityReduction` at the saturation investment `500000`. -/
theorem C3_risk_reduction_bounds (s : ScenarioParameters) (I₁ I₂ : ℝ)
    (hmax0 : 0 ≤ s.risk.maxSecurityReduction)
    (hmax1 : s.risk.maxSecurityReduction ≤ 1)
    (h1 : 0 ≤ I₁) (h12 : I₁ ≤ I₂) :
    0 ≤ (calculateRiskCosts s I₁).securityReductionFactor ∧
    (calculateRiskCosts s I₁).securityReductionFactor ≤ s.risk.maxSecurityReduction ∧
    (calculateRiskCosts s I₁).securityReductionFactor ≤
      (calculateRiskCosts s I₂).securityReductionFactor ∧
    (calculateRiskCosts s 0).securityReductionFactor = 0 ∧
    (calculateRiskCosts s 500000).securityReductionFactor = s.risk.maxSecurityReduction :=
  ⟨securityReductionFactor_nonneg s I₁ hmax0 h1,
   securityReductionFactor_le_max s I₁,
   securityReductionFactor_mono s I₁ I₂ hmax0 h1 h12,
   securityReductionFactor_at_zero s hmax0,
   securityReductionFactor_at_saturation s⟩

/-- Witness for C3 at the concrete scenario `exScenario`
(`maxSecurityReduction = 1/2`) and investments `0` and `500000`. -/
theorem C3_risk_reduction_bounds_witness :
    (0 ≤ exScenario.risk.maxSecurityReduction ∧
      exScenario.risk.maxSecurityReduction ≤ 1 ∧
      (0:ℝ) ≤ 0 ∧ (0:ℝ) ≤ 500000) ∧
    (0 ≤ (calculateRiskCosts exScenario 0).securityReductionFactor ∧
    (calculateRiskCosts exScenario 0).securityReductionFactor ≤
      exScenario.risk.maxSecurityReduction ∧
    (calculateRiskCosts exScenario 0).securityReductionFactor ≤
      (calculateRiskCosts exScenario 500000).securityReductionFactor ∧
    (calculateRiskCosts exScenario 0).securityReductionFactor = 0 ∧
    (calculateRiskCosts exScenario 500000).securityReductionFactor =
      exScenario.risk.maxSecurityReduction) :=
  ⟨⟨by norm_num [exScenario], by norm_num [exScenario], le_rfl, by norm_num⟩,
   C3_risk_reduction_bounds exScenario 0 500000
     (by norm_num [exScenario]) (by norm_num [exScenario]) le_rfl (by norm_num)⟩

/-- C7: the dollar adjustments are computed from the product of only the
region, time and workload multiplier sets; the regulatory multiplier is
excluded, so two scenarios differing only in `regulatoryIntensity`
produce identical `adjustments` objects. -/
theorem C7_regulatory_excluded_from_adjustments (b : BaseTCOInput)
    (s : ScenarioParameters) (ctx : ComputationContext) (now : String)
    (i₁ i₂ : RegulatoryIntensity) :
    (computeScenarioTCO b s ctx now).adjustments =
      applyMultipliers b (combineMultipliers
        [getRegionMultipliers s.region, getTimeMultipliers s.time,
         getWorkloadMultipliers s.workload]) ∧
    (computeScenarioTCO b { s with regulatoryIntensity := i₁ } ctx now).adjustments =
      (computeScenarioTCO b { s with regulatoryIntensity := i₂ } ctx now).adjustments :=
  ⟨rfl, rfl⟩

/-- C10: `security.annualInvestment` is not a cost term of the
breakdown; increasing it (all else fixed, within the non-negative input
domain) never increases the grand total. -/
theorem C10_investment_never_increases_total (b : BaseTCOInput)
    (s : ScenarioParameters) (ctx : ComputationContext) (now : String)
    (hrisk : RiskNonneg s.risk) (hsec : SecurityNonneg s.security)
    (hctx : ContextNonneg ctx)
    (v₁ v₂ : ℝ) (hv1 : 0 ≤ v₁) (h12 : v₁ ≤ v₂) :
    (computeScenarioTCO b
        { s with security := { s.security with annualInvestment := v₂ } } ctx now).totals.grandTotal ≤
      (computeScenarioTCO b
        { s with security := { s.security with annualInvestment := v₁ } } ctx now).totals.grandTotal :=
  grand_anti_investment b s ctx now hrisk hsec hctx v₁ v₂ hv1 h12

/-- Witness for C10 at the concrete baseline scenario and investments
`0` and `500000`. -/
theorem C10_investment_never_increases_total_witness :
    (RiskNonneg exScenario.risk ∧ SecurityNonneg exScenario.security ∧
      ContextNonneg exCtxZero ∧ (0:ℝ) ≤ 0 ∧ (0:ℝ) ≤ 500000) ∧
    (computeScenarioTCO exBaseZero
        { exScenario with security :=
            { exScenario.security with annualInvestment := 500000 } } exCtxZero "t").totals.grandTotal ≤
      (computeScenarioTCO exBaseZero
        { exScenario with security :=
            { exScenario.security with annualInvestment := 0 } } exCtxZero "t").totals.grandTotal :=
  ⟨⟨by norm_num [RiskNonneg, exScenario],
    by norm_num [SecurityNonneg, exScenario],
    by norm_num [ContextNonneg, exCtxZero], le_rfl, by norm_num⟩,
   C10_investment_never_increases_total exBaseZero exScenario exCtxZero "t"
     (by norm_num [RiskNonneg, exScenario])
     (by norm_num [SecurityNonneg, exScenario])
     (by norm_num [ContextNonneg, exCtxZero]) 0 500000 le_rfl (by norm_num)⟩

/-- C8: in `calculateSensitivity` with parameter `security`, the low and
high breakdowns differ from the base breakdown only in the risk layer:
base TCO, multipliers, adjustments, compliance costs, security costs
(all itemized line items and their total) and the non-risk totals are
equal to the base breakdown's. -/
theorem C8_security_sensitivity_frame (b : BaseTCOInput) (s : ScenarioParameters)
    (ctx : ComputationContext) (p : ℝ) (t₁ t₂ t₃ : String) :
    ((calculateSensitivity b s ctx SensitivityParameter.security p t₁ t₂ t₃).low.baseTCO =
      (calculateSensitivity b s ctx SensitivityParameter.security p t₁ t₂ t₃).base.baseTCO ∧
    (calculateSensitivity b s ctx SensitivityParameter.security p t₁ t₂ t₃).low.multipliers =
      (calculateSensitivity b s ctx SensitivityParameter.security p t₁ t₂ t₃).base.multipliers ∧
    (calculateSensitivity b s ctx SensitivityParameter.security p t₁ t₂ t₃).low.adjustments =
      (calculateSensitivity b s ctx SensitivityParameter.security p t₁ t₂ t₃).base.adjustments ∧
    (calculateSensitivity b s ctx SensitivityParameter.security p t₁ t₂ t₃).low.complianceCosts =
      (calculateSensitivity b s ctx SensitivityParameter.security p t₁ t₂ t₃).base.complianceCosts ∧
    (calculateSensitivity b s ctx SensitivityParameter.security p t₁ t₂ t₃).low.securityCosts =
      (calculateSensitivity b s ctx SensitivityParameter.security p t₁ t₂ t₃).base.securityCosts ∧
    (calculateSensitivity b s ctx SensitivityParameter.security p t₁ t₂ t₃).low.totals.baseTCO =
      (calculateSensitivity b s ctx SensitivityParameter.security p t₁ t₂ t₃).base.totals.baseTCO ∧
    (calculateSensitivity b s ctx SensitivityParameter.security p t₁ t₂ t₃).low.totals.adjustments =
      (calculateSensitivity b s ctx SensitivityParameter.security p t₁ t₂ t₃).base.totals.adjustments ∧
    (calculateSensitivity b s ctx SensitivityParameter.security p t₁ t₂ t₃).low.totals.compliance =
      (calculateSensitivity b s ctx SensitivityParameter.security p t₁ t₂ t₃).base.totals.compliance ∧
    (calculateSensitivity b s ctx SensitivityParameter.security p t₁ t₂ t₃).low.totals.security =
      (calculateSensitivity b s ctx SensitivityParameter.security p t₁ t₂ t₃).base.totals.security) ∧
    ((calculateSensitivity b s ctx SensitivityParameter.security p t₁ t₂ t₃).high.baseTCO =
      (calculateSensitivity b s ctx SensitivityParameter.security p t₁ t₂ t₃).base.baseTCO ∧
    (calculateSensitivity b s ctx SensitivityParameter.security p t₁ t₂ t₃).high.multipliers =
      (calculateSensitivity b s ctx SensitivityParameter.security p t₁ t₂ t₃).base.multipliers ∧
    (calculateSensitivity b s ctx SensitivityParameter.security p t₁ t₂ t₃).high.adjustments =
      (calculateSensitivity b s ctx SensitivityParameter.security p t₁ t₂ t₃).base.adjustments ∧
    (calculateSensitivity b s ctx SensitivityParameter.security p t₁ t₂ t₃).high.complianceCosts =
      (calculateSensitivity b s ctx SensitivityParameter.security p t₁ t₂ t₃).base.complianceCosts ∧
    (calculateSensitivity b s ctx SensitivityParameter.security p t₁ t₂ t₃).high.securityCosts =
      (calculateSensitivity b s ctx SensitivityParameter.security p t₁ t₂ t₃).base.securityCosts ∧
    (calculateSensitivity b s ctx SensitivityParameter.security p t₁ t₂ t₃).high.totals.baseTCO =
      (calculateSensitivity b s ctx SensitivityParameter.security p t₁ t₂ t₃).base.totals.baseTCO ∧
    (calculateSensitivity b s ctx SensitivityParameter.security p t₁ t₂ t₃).high.totals.adjustments =
      (calculateSensitivity b s ctx SensitivityParameter.security p t₁ t₂ t₃).base.totals.adjustments ∧
    (calculateSensitivity b s ctx SensitivityParameter.security p t₁ t₂ t₃).high.totals.compliance =
      (calculateSensitivity b s ctx SensitivityParameter.security p t₁ t₂ t₃).base.totals.compliance ∧
    (calculateSensitivity b s ctx SensitivityParameter.security p t₁ t₂ t₃).high.totals.security =
      (calculateSensitivity b s ctx SensitivityParameter.security p t₁ t₂ t₃).base.totals.security) :=
  ⟨⟨rfl, rfl, rfl, rfl, rfl, rfl, rfl, rfl, rfl⟩,
   ⟨rfl, rfl, rfl, rfl, rfl, rfl, rfl, rfl, rfl⟩⟩

/-- C9: `combineMultipliers` maps the empty list to the all-`1.0` set,
a singleton to its element, is invariant under permutation of the list,
and splitting the list and combining the two partial products gives the
same result (associativity of re-association); all exact over real
arithmetic. -/
theorem C9_combiner_identity_perm_assoc :
    combineMultipliers [] =
      { energy := 1.0, labor := 1.0, compliance := 1.0, cooling := 1.0, monitoring := 1.0 } ∧
    (∀ X : MultiplierSet, combineMultipliers [X] = X) ∧
    (∀ l₁ l₂ : List MultiplierSet, l₁.Perm l₂ →
      combineMultipliers l₁ = combineMultipliers l₂) ∧
    (∀ l₁ l₂ : List MultiplierSet, combineMultipliers (l₁ ++ l₂) =
      combineMultipliers [combineMultipliers l₁, combineMultipliers l₂]) := by
  refine ⟨rfl, ?_, ?_, ?_⟩
  · intro X
    ext <;> simp [combineMultipliers_eq_prod]
  · intro l₁ l₂ h
    rw [combineMultipliers_eq_prod, combineMultipliers_eq_prod]
    ext
    · exact (h.map MultiplierSet.energy).prod_eq
    · exact (h.map MultiplierSet.labor).prod_eq
    · exact (h.map MultiplierSet.compliance).prod_eq
    · exact (h.map MultiplierSet.cooling).prod_eq
    · exact (h.map MultiplierSet.monitoring).prod_eq
  · intro l₁ l₂
    rw [combineMultipliers_eq_prod l₁, combineMultipliers_eq_prod l₂,
      combineMultipliers_eq_prod (l₁ ++ l₂), combineMultipliers_eq_prod]
    ext <;> simp

/-- Witness for C9's permutation clause: a concrete two-element swap. -/
theorem C9_combiner_identity_perm_assoc_witness :
    ([({ energy := 2, labor := 3, compliance := 5, cooling := 7, monitoring := 11 } : MultiplierSet),
      { energy := 13, labor := 17, compliance := 19, cooling := 23, monitoring := 29 }].Perm
     [({ energy := 13, labor := 17, compliance := 19, cooling := 23, monitoring := 29 } : MultiplierSet),
      { energy := 2, labor := 3, compliance := 5, cooling := 7, monitoring := 11 }]) ∧
    combineMultipliers
      [({ energy := 2, labor := 3, compliance := 5, cooling := 7, monitoring := 11 } : MultiplierSet),
       { energy := 13, labor := 17, compliance := 19, cooling := 23, monitoring := 29 }] =
    combineMultipliers
      [({ energy := 13, labor := 17, compliance := 19, cooling := 23, monitoring := 29 } : MultiplierSet),
       { energy := 2, labor := 3, compliance := 5, cooling := 7, monitoring := 11 }] :=
  ⟨List.Perm.swap _ _ _,
   C9_combiner_identity_perm_assoc.2.2.1 _ _ (List.Perm.swap _ _ _)⟩

/-- C2 counterexample: moving the security-investment axis to a strictly
more intense setting (investment `0 → 500000`, all else fixed) strictly
DECREASES the grand total, refuting the claim that moving any single
axis to a more intense setting never decreases it. -/
theorem C2_counterexample_security_axis :
    exScenario.security.annualInvestment < exScenarioHighInv.security.annualInvestment ∧
    (computeScenarioTCO exBaseZero exScenarioHighInv exCtxZero "t").totals.grandTotal <
      (computeScenarioTCO exBaseZero exScenario exCtxZero "t").totals.grandTotal := by
  constructor
  · norm_num [exScenario, exScenarioHighInv]
  · rw [grandTotal_eq, grandTotal_eq]
    have hIlo : (calculateSecurityCosts exScenario exCtxZero).total +
        exScenario.security.annualInvestment = 0 := by
      norm_num [calculateSecurityCosts, exScenario, exCtxZero]
    have hIhi : (calculateSecurityCosts exScenarioHighInv exCtxZero).total +
        exScenarioHighInv.security.annualInvestment = 500000 := by
      norm_num [calculateSecurityCosts, exScenarioHighInv, exScenario, exCtxZero]
    rw [hIlo, hIhi]
    have e1 : (calculateRiskCosts exScenario 0).expectedAnnualLoss = 100 := by
      rw [expectedAnnualLoss_eq,
        securityReductionFactor_at_zero exScenario (by norm_num [exScenario])]
      norm_num [exScenario]
    have e2 : (calculateRiskCosts exScenarioHighInv 500000).expectedAnnualLoss = 50 := by
      rw [expectedAnnualLoss_eq, securityReductionFactor_at_saturation]
      norm_num [exScenarioHighInv, exScenario]
    have hadj : (applyMultipliers exBaseZero (combineMultipliers
        [getRegionMultipliers exScenarioHighInv.region,
         getTimeMultipliers exScenarioHighInv.time,
         getWorkloadMultipliers exScenarioHighInv.workload])).total =
      (applyMultipliers exBaseZero (combineMultipliers
        [getRegionMultipliers exScenario.region, getTimeMultipliers exScenario.time,
         getWorkloadMultipliers exScenario.workload])).total := rfl
    have hcomp : (calculateComplianceCosts exScenarioHighInv 75).total =
        (calculateComplianceCosts exScenario 75).total := rfl
    have hsect : (calculateSecurityCosts exScenarioHighInv exCtxZero).total =
        (calculateSecurityCosts exScenario exCtxZero).total := rfl
    rw [hadj, hcomp, hsect, e1, e2]
    norm_num

/-- C2 amended: grand-total monotonicity holds axis by axis in the
following corrected form, for non-negative base costs, context, security
and risk parameters, non-negative escalation rate and non-negative shock
factor: the region axis is monotone with respect to the field-wise
intensity order on its multiplier triple (the three regions are not
totally ordered: US → Global lowers the labor multiplier); the year,
workload-class and regulatory axes are monotone as claimed; and the
security-investment axis is ANTI-monotone — raising the investment never
increases the grand total. -/
theorem C2_amended_axis_monotonicity (b : BaseTCOInput) (s : ScenarioParameters)
    (ctx : ComputationContext) (now : String)
    (hb : BaseTCONonneg b) (hr : 0 ≤ s.time.escalationRate) (hs : ShockOK s.time)
    (hrisk : RiskNonneg s.risk) (hsec : SecurityNonneg s.security)
    (hctx : ContextNonneg ctx) :
    (∀ r₁ r₂ : Region, regionIntensityLE r₁ r₂ →
      (computeScenarioTCO b { s with region := r₁ } ctx now).totals.grandTotal ≤
        (computeScenarioTCO b { s with region := r₂ } ctx now).totals.grandTotal) ∧
    (∀ y₁ y₂ : ℤ, y₁ ≤ y₂ →
      (computeScenarioTCO b { s with time := { s.time with year := y₁ } } ctx now).totals.grandTotal ≤
        (computeScenarioTCO b { s with time := { s.time with year := y₂ } } ctx now).totals.grandTotal) ∧
    (∀ c₁ c₂ : WorkloadClass, workloadClassRank c₁ ≤ workloadClassRank c₂ →
      (computeScenarioTCO b { s with workload := { s.workload with utilizationClass := c₁ } } ctx now).totals.grandTotal ≤
        (computeScenarioTCO b { s with workload := { s.workload with utilizationClass := c₂ } } ctx now).totals.grandTotal) ∧
    (∀ i₁ i₂ : RegulatoryIntensity, regulatoryIntensityRank i₁ ≤ regulatoryIntensityRank i₂ →
      (computeScenarioTCO b { s with regulatoryIntensity := i₁ } ctx now).totals.grandTotal ≤
        (computeScenarioTCO b { s with regulatoryIntensity := i₂ } ctx now).totals.grandTotal) ∧
    (∀ v₁ v₂ : ℝ, 0 ≤ v₁ → v₁ ≤ v₂ →
      (computeScenarioTCO b { s with security := { s.security with annualInvestment := v₂ } } ctx now).totals.grandTotal ≤
        (computeScenarioTCO b { s with security := { s.security with annualInvestment := v₁ } } ctx now).totals.grandTotal) :=
  ⟨fun r₁ r₂ h => grand_mono_region b s ctx now hb hr hs r₁ r₂ h,
   fun y₁ y₂ h => grand_mono_year b s ctx now hb hr hs y₁ y₂ h,
   fun c₁ c₂ h => grand_mono_workload b s ctx now hb hr hs c₁ c₂ h,
   fun i₁ i₂ h => grand_mono_regulatory b s ctx now i₁ i₂ h,
   fun v₁ v₂ h h' => grand_anti_investment b s ctx now hrisk hsec hctx v₁ v₂ h h'⟩

/-- Witness for the amended C2 at the concrete baseline inputs,
sampling the regulatory axis `Low → High`. -/
theorem C2_amended_axis_monotonicity_witness :
    (BaseTCONonneg exBaseZero ∧ 0 ≤ exScenario.time.escalationRate ∧
      ShockOK exScenario.time ∧ RiskNonneg exScenario.risk ∧
      SecurityNonneg exScenario.security ∧ ContextNonneg exCtxZero ∧
      regulatoryIntensityRank RegulatoryIntensity.Low ≤
        regulatoryIntensityRank RegulatoryIntensity.High) ∧
    (computeScenarioTCO exBaseZero
        { exScenario with regulatoryIntensity := RegulatoryIntensity.Low } exCtxZero "t").totals.grandTotal ≤
      (computeScenarioTCO exBaseZero
        { exScenario with regulatoryIntensity := RegulatoryIntensity.High } exCtxZero "t").totals.grandTotal :=
  ⟨⟨by norm_num [BaseTCONonneg, exBaseZero],
    by norm_num [exScenario],
    by intro v h; simp [exScenario] at h,
    by norm_num [RiskNonneg, exScenario],
    by norm_num [SecurityNonneg, exScenario],
    by norm_num [ContextNonneg, exCtxZero],
    by norm_num [regulatoryIntensityRank]⟩,
   (C2_amended_axis_monotonicity exBaseZero exScenario exCtxZero "t"
      (by norm_num [BaseTCONonneg, exBaseZero])
      (by norm_num [exScenario])
      (by intro v h; simp [exScenario] at h)
      (by norm_num [RiskNonneg, exScenario])
      (by norm_num [SecurityNonneg, exScenario])
      (by norm_num [ContextNonneg, exCtxZero])).2.2.2.1
     RegulatoryIntensity.Low RegulatoryIntensity.High
     (by norm_num [regulatoryIntensityRank])⟩

/-- C4: at a zero-grand-total baseline breakdown the engine's
`compareScenarios` performs the division unguarded and its
`percentageChange` is non-finite (`none` in the `jsDiv` model, i.e.
`NaN`/`±Infinity` in JavaScript) — it does NOT return a defined
sentinel.  Only the UI component's computation
(`componentPercentageChange`) applies the explicit sentinel `0`. -/
theorem C4_zero_baseline_divides_unguarded :
    exBreakdownZero.totals.grandTotal = 0 ∧
    (compareScenarios exBreakdownZero exBreakdownHundred
        exScenario exScenarioHighInv).deltas.percentageChange = none ∧
    componentPercentageChange exBreakdownZero exBreakdownHundred = 0 := by
  refine ⟨rfl, ?_, ?_⟩
  · simp [compareScenarios, jsDiv, exBreakdownZero, exBreakdownHundred]
  · simp [componentPercentageChange, exBreakdownZero]

/-- C5 counterexample: two invocations of `computeScenarioTCO` with
identical `(baseTCO, scenario, context)` inputs but different clock
readings return different `ComputationBreakdown` objects — they differ
in `calculatedAt`, which records the invocation time, not the inputs. -/
theorem C5_counterexample_calculatedAt :
    computeScenarioTCO exBaseZero exScenario exCtxZero "2024-01-01T00:00:00Z" ≠
      computeScenarioTCO exBaseZero exScenario exCtxZero "2024-01-02T00:00:00Z" := by
  intro h
  have h2 := congrArg ComputationBreakdown.calculatedAt h
  simp [computeScenarioTCO] at h2

/-- C5 amended: `computeScenarioTCO` is deterministic in every field
EXCEPT `calculatedAt`: for identical `(baseTCO, scenario, context)`
inputs, two invocations agree on the whole breakdown once the
`calculatedAt` timestamp is replaced. -/
theorem C5_amended_determinism_modulo_timestamp (b : BaseTCOInput)
    (s : ScenarioParameters) (ctx : ComputationContext) (t₁ t₂ : String) :
    computeScenarioTCO b s ctx t₁ =
      { computeScenarioTCO b s ctx t₂ with calculatedAt := t₁ } := rfl

/-- C6 counterexample: for the past year `2023 ≤ baselineYear = 2024`
and escalation rate `0.1`, the escalation factor used by the time-axis
resolver `getTimeMultipliers` is `1.1⁻¹ ≠ 1.0` — the resolver does not
clamp past years (only the standalone `calculateEscalationFactor`
does). -/
theorem C6_counterexample_no_clamp :
    ((2023:ℤ) ≤ TIME_PARAMETERS.baselineYear) ∧
    resolverEscalationFactor
      { year := 2023, escalationRate := 0.1, shockFactor := none, shockEnabled := false } ≠ 1 := by
  constructor
  · norm_num [TIME_PARAMETERS]
  · unfold resolverEscalationFactor
    have hy : ((2023:ℤ) - TIME_PARAMETERS.baselineYear) = -1 := by
      norm_num [TIME_PARAMETERS]
    rw [hy]
    norm_num [zpow_neg, zpow_one]

/-- C6 amended: the resolver's escalation factor equals `1.0` at
`year = baselineYear` and `(1+r)^n` at `baselineYear + n` for `n > 0`,
but is NOT clamped for past years; the clamped behaviour claimed for
`year ≤ baselineYear` holds for the standalone
`calculateEscalationFactor`, which also satisfies the `(1+r)^n`
formula. -/
theorem C6_amended_escalation_factor :
    (∀ t : TimeParameters, t.year = TIME_PARAMETERS.baselineYear →
      resolverEscalationFactor t = 1) ∧
    (∀ (t : TimeParameters) (n : ℕ), 0 < n →
      t.year = TIME_PARAMETERS.baselineYear + n →
      resolverEscalationFactor t = (1 + t.escalationRate) ^ n) ∧
    (∀ (y : ℤ) (r : ℝ), y ≤ TIME_PARAMETERS.baselineYear →
      calculateEscalationFactor y r = 1) ∧
    (∀ (n : ℕ) (r : ℝ), 0 < n →
      calculateEscalationFactor (TIME_PARAMETERS.baselineYear + n) r = (1 + r) ^ n) := by
  refine ⟨?_, ?_, ?_, ?_⟩
  · intro t h
    unfold resolverEscalationFactor
    rw [h, sub_self, zpow_zero]
  · intro t n _ h
    unfold resolverEscalationFactor
    rw [h]
    have hy : TIME_PARAMETERS.baselineYear + (n:ℤ) - TIME_PARAMETERS.baselineYear = (n:ℤ) := by
      ring
    rw [hy, zpow_natCast]
  · intro y r h
    unfold calculateEscalationFactor
    have hb : TIME_PARAMETERS.baselineYear = 2024 := rfl
    have hc : y - TIME_PARAMETERS.baselineYear ≤ 0 := by omega
    rw [if_pos hc]
    norm_num
  · intro n r hn
    unfold calculateEscalationFactor
    have hb : TIME_PARAMETERS.baselineYear = 2024 := rfl
    have hc : ¬ (TIME_PARAMETERS.baselineYear + (n:ℤ) - TIME_PARAMETERS.baselineYear ≤ 0) := by
      omega
    rw [if_neg hc]
    have hy : TIME_PARAMETERS.baselineYear + (n:ℤ) - TIME_PARAMETERS.baselineYear = (n:ℤ) := by
      ring
    rw [hy, zpow_natCast]

/-- Witness for the amended C6: the clamped `calculateEscalationFactor`
at the past year `2020` with rate `0.5` is exactly `1`, and at
`2024 + 2` with rate `0.1` it is `1.1²`. -/
theorem C6_amended_escalation_factor_witness :
    ((2020:ℤ) ≤ TIME_PARAMETERS.baselineYear ∧ 0 < 2) ∧
    calculateEscalationFactor 2020 0.5 = 1 ∧
    calculateEscalationFactor (TIME_PARAMETERS.baselineYear + (2:ℕ)) 0.1 = (1 + 0.1) ^ (2:ℕ) :=
  ⟨⟨by norm_num [TIME_PARAMETERS], by norm_num⟩,
   C6_amended_escalation_factor.2.2.1 2020 0.5 (by norm_num [TIME_PARAMETERS]),
   C6_amended_escalation_factor.2.2.2 2 0.1 (by norm_num)⟩
